import Mathlib

/-!
# Verification of the platformer state machine and gameplay physics

Shallow embedding of the repository classes `StateManager`, `GameplayState`
(its `update` physics pipeline) and `Sprite` (its `update` animation clock).  JavaScript numbers are
modelled as exact rationals (`ℚ`); the key-code map `KeysObject` is modelled as
a total function `String → Bool` (a missing key reads as `false`, matching the
falsy lookup of an absent property).  The transition-observer callback is
modelled as an effect `GameState → σ → σ` on an abstract world `σ`: `setState`
applies it synchronously before returning, mirroring the source where the
callback is invoked inline.
-/

set_option autoImplicit false

namespace Platformer

/-- The union type GameState, one of MENU, GAMEPLAY, PAUSE. -/
inductive GameState where
  | MENU
  | GAMEPLAY
  | PAUSE
deriving DecidableEq, Repr

/-- The `StateManager` class: current state plus an optional observer.
The observer is modelled as an effect on an abstract world `σ`. -/
structure StateManager (σ : Type) where
  currentState : GameState
  onStateChange : Option (GameState → σ → σ)

/-- A fresh StateManager: `currentState` initialised to MENU, no observer. -/
def StateManager.init (σ : Type) : StateManager σ :=
  { currentState := GameState.MENU, onStateChange := none }

/-- Method getCurrentState: returns the `currentState` field. -/
def StateManager.getCurrentState {σ : Type} (m : StateManager σ) : GameState :=
  m.currentState

/-- Method setState: assigns `currentState`, then invokes the observer
(if registered) with `newState` before returning. -/
def StateManager.setState {σ : Type} (m : StateManager σ) (newState : GameState)
    (w : σ) : StateManager σ × σ :=
  let m' := { m with currentState := newState }
  match m.onStateChange with
  | some cb => (m', cb newState w)
  | none => (m', w)

/-- Method onStateChanged: stores the callback in the single observer slot. -/
def StateManager.onStateChanged {σ : Type} (m : StateManager σ)
    (cb : GameState → σ → σ) : StateManager σ :=
  { m with onStateChange := some cb }

/-- Run a sequence of `setState` calls, threading the manager and the world. -/
def runSetStates {σ : Type} (m : StateManager σ) (w : σ) :
    List GameState → StateManager σ × σ
  | [] => (m, w)
  | s :: rest =>
      let r := m.setState s w
      runSetStates r.1 r.2 rest

/-- After any sequence of `setState` calls, the current state is the argument
of the last call, regardless of the starting manager, world, or observer. -/
theorem runSetStates_last {σ : Type} (l : List GameState) (s : GameState) :
    ∀ (m : StateManager σ) (w : σ),
      (runSetStates m w (l ++ [s])).1.getCurrentState = s := by
  induction l with
  | nil =>
      intro m w
      unfold runSetStates StateManager.setState
      cases m.onStateChange <;> rfl
  | cons a rest ih =>
      intro m w
      exact ih (m.setState a w).1 (m.setState a w).2

/-- C1: after any sequence of `setState` calls starting from the initial
manager (state `MENU`), `getCurrentState()` returns exactly the argument of the
last call; moreover, whenever an observer `cb` is registered, `setState s`
returns the manager with `currentState = s` together with the world already
transformed by `cb s`, i.e. the observer runs synchronously, with argument `s`,
before `setState` returns. -/
theorem setState_immediate_and_synchronous (σ : Type) (w w' : σ)
    (l : List GameState) (s : GameState) (m : StateManager σ)
    (cb : GameState → σ → σ) (h : m.onStateChange = some cb) :
    (runSetStates (StateManager.init σ) w (l ++ [s])).1.getCurrentState = s ∧
    m.setState s w' = ({ m with currentState := s }, cb s w') := by
  refine ⟨runSetStates_last l s _ w, ?_⟩
  unfold StateManager.setState
  rw [h]

/-- Witness for C1 at concrete inputs: the sequence `[GAMEPLAY, PAUSE]` from the
initial manager ends in `PAUSE`, and a manager holding a counting observer has
that observer applied synchronously by `setState`. -/
theorem setState_immediate_and_synchronous_witness :
    (StateManager.onStateChange
        (σ := Nat)
        { currentState := GameState.MENU, onStateChange := some fun _ n => n + 1 } =
      some fun _ n => n + 1) ∧
    (runSetStates (StateManager.init Nat) 0
        ([GameState.GAMEPLAY] ++ [GameState.PAUSE])).1.getCurrentState =
      GameState.PAUSE ∧
    StateManager.setState
        { currentState := GameState.MENU, onStateChange := some fun _ n => n + 1 }
        GameState.PAUSE 5 =
      ({ currentState := GameState.PAUSE, onStateChange := some fun _ n => n + 1 },
        6) := by
  have h := setState_immediate_and_synchronous Nat 0 5 [GameState.GAMEPLAY]
    GameState.PAUSE
    { currentState := GameState.MENU, onStateChange := some fun _ n => n + 1 }
    (fun _ n => n + 1) rfl
  exact ⟨rfl, h.1, by simpa using h.2⟩

/-- C9: `onStateChanged` is a single overwritable slot: registering `f` then
`g` yields the same manager as registering only `g`, and a subsequent
`setState` invokes only `g` (the world is transformed by `g`, never by `f`). -/
theorem onStateChanged_replaces (σ : Type) (m : StateManager σ)
    (f g : GameState → σ → σ) (s : GameState) (w : σ) :
    (m.onStateChanged f).onStateChanged g = m.onStateChanged g ∧
    ((m.onStateChanged f).onStateChanged g).setState s w =
      ({ m with currentState := s, onStateChange := some g }, g s w) := by
  exact ⟨rfl, rfl⟩

/-- The key-code map `KeysObject`: an absent key reads as falsy. -/
def Keys : Type := String → Bool

/-- The `game` record of `GameplayState`. -/
structure Game where
  width : ℚ
  height : ℚ
  keys : Keys
  gravity : ℚ
  groundY : ℚ

/-- The `player` record of `GameplayState`. -/
structure Player where
  x : ℚ
  y : ℚ
  width : ℚ
  height : ℚ
  velocityX : ℚ
  velocityY : ℚ
  speed : ℚ
  jumpPower : ℚ
  onGround : Bool
  color : String
deriving DecidableEq

/-- Horizontal movement: `KeyA` / `KeyD` set the velocity, otherwise friction
`velocityX *= 0.8`. -/
def horizontalStep (g : Game) (p : Player) : Player :=
  if g.keys "KeyA" then { p with velocityX := -p.speed }
  else if g.keys "KeyD" then { p with velocityX := p.speed }
  else { p with velocityX := p.velocityX * 0.8 }

/-- Jumping: if `Space` is held and the player is on the ground,
`velocityY = -jumpPower` and `onGround = false`. -/
def jumpStep (g : Game) (p : Player) : Player :=
  if g.keys "Space" && p.onGround then
    { p with velocityY := -p.jumpPower, onGround := false }
  else p

/-- Gravity: if not on the ground, `velocityY += gravity`. -/
def gravityStep (g : Game) (p : Player) : Player :=
  if !p.onGround then { p with velocityY := p.velocityY + g.gravity } else p

/-- Position update: `x += velocityX; y += velocityY`. -/
def integrateStep (p : Player) : Player :=
  { p with x := p.x + p.velocityX, y := p.y + p.velocityY }

/-- Ground collision: if `y + height >= groundY`, clamp `y` to
`groundY - height`, zero `velocityY`, set `onGround`. -/
def groundStep (g : Game) (p : Player) : Player :=
  if g.groundY ≤ p.y + p.height then
    { p with y := g.groundY - p.height, velocityY := 0, onGround := true }
  else p

/-- Horizontal bounds: clamp `x` at the left edge, else at the right edge,
zeroing `velocityX` on the clamped side. -/
def boundsStep (g : Game) (p : Player) : Player :=
  if p.x < 0 then { p with x := 0, velocityX := 0 }
  else if g.width < p.x + p.width then
    { p with x := g.width - p.width, velocityX := 0 }
  else p

/-- The player state after the position update and before collision handling:
horizontal movement, jumping, gravity, position update, in source order. -/
def preCollision (g : Game) (p : Player) : Player :=
  integrateStep (gravityStep g (jumpStep g (horizontalStep g p)))

/-- The player-mutating part of `GameplayState.update()`, in source order:
horizontal movement, jumping, gravity, position update, ground collision,
horizontal bounds. -/
def updatePlayer (g : Game) (p : Player) : Player :=
  boundsStep g (groundStep g (preCollision g p))

/-- The empty key map `{}` of a fresh `GameplayState`: every lookup is falsy. -/
def noKeys : Keys := fun _ => false

/-- The `Sprite` class fields relevant to `update`. -/
structure Sprite where
  frameWidth : ℚ
  frameHeight : ℚ
  totalFrames : ℕ
  currentFrame : ℕ
  animationSpeed : ℚ
  lastFrameTime : ℚ
deriving DecidableEq

/-- Method update of Sprite: advance the frame when the time budget has
elapsed; single-frame sprites never change. -/
def Sprite.update (s : Sprite) (currentTime : ℚ) : Sprite :=
  if s.totalFrames ≤ 1 then s
  else if s.animationSpeed ≤ currentTime - s.lastFrameTime then
    { s with currentFrame := (s.currentFrame + 1) % s.totalFrames,
             lastFrameTime := currentTime }
  else s

/-- The fields of `GameplayState` mutated by `update()`: the game record, the
player record, and the sprite map (absent until `enter()` resolves). -/
structure GameplayState where
  game : Game
  player : Player
  sprites : Option (List (String × Sprite))

/-- Method update of GameplayState: the physics pipeline on the player, then the
pause trigger (`Escape` held means setState to PAUSE), then the sprite animation
clocks. -/
def GameplayState.update {σ : Type} (gs : GameplayState) (now : ℚ)
    (sm : StateManager σ) (w : σ) : GameplayState × StateManager σ × σ :=
  let p := updatePlayer gs.game gs.player
  let smw := if gs.game.keys "Escape" then sm.setState GameState.PAUSE w else (sm, w)
  let sprites := gs.sprites.map (fun l => l.map fun is => (is.1, is.2.update now))
  ({ gs with player := p, sprites := sprites }, smw.1, smw.2)

/-- The `game` record as initialised by the `GameplayState` constructor
(before any resize event). -/
def initGame (canvasWidth canvasHeight : ℚ) : Game :=
  { width := canvasWidth
    height := canvasHeight
    keys := noKeys
    gravity := 0.5
    groundY := canvasHeight - 40 }

/-- The `player` record as initialised by the `GameplayState` constructor. -/
def initPlayer (g : Game) : Player :=
  { x := 100
    y := g.groundY - 32
    width := 24
    height := 32
    velocityX := 0
    velocityY := 0
    speed := 4
    jumpPower := 12
    onGround := false
    color := "#FF6B6B" }

/-- Run a sequence of update ticks from player `p`, the keys map holding the
given value on each tick (input events rewrite `game.keys` between ticks). -/
def runTicks (g : Game) (p : Player) : List Keys → Player
  | [] => p
  | k :: ks => runTicks g (updatePlayer { g with keys := k } p) ks

/-! ### Field-preservation facts for the pipeline steps -/

@[simp]
theorem horizontalStep_x (g : Game) (p : Player) : (horizontalStep g p).x = p.x := by
  unfold horizontalStep; split_ifs <;> rfl

@[simp]
theorem horizontalStep_y (g : Game) (p : Player) : (horizontalStep g p).y = p.y := by
  unfold horizontalStep; split_ifs <;> rfl

@[simp]
theorem horizontalStep_width (g : Game) (p : Player) :
    (horizontalStep g p).width = p.width := by
  unfold horizontalStep; split_ifs <;> rfl

@[simp]
theorem horizontalStep_height (g : Game) (p : Player) :
    (horizontalStep g p).height = p.height := by
  unfold horizontalStep; split_ifs <;> rfl

@[simp]
theorem horizontalStep_velocityY (g : Game) (p : Player) :
    (horizontalStep g p).velocityY = p.velocityY := by
  unfold horizontalStep; split_ifs <;> rfl

@[simp]
theorem horizontalStep_speed (g : Game) (p : Player) :
    (horizontalStep g p).speed = p.speed := by
  unfold horizontalStep; split_ifs <;> rfl

@[simp]
theorem horizontalStep_jumpPower (g : Game) (p : Player) :
    (horizontalStep g p).jumpPower = p.jumpPower := by
  unfold horizontalStep; split_ifs <;> rfl

@[simp]
theorem horizontalStep_onGround (g : Game) (p : Player) :
    (horizontalStep g p).onGround = p.onGround := by
  unfold horizontalStep; split_ifs <;> rfl

@[simp]
theorem horizontalStep_color (g : Game) (p : Player) :
    (horizontalStep g p).color = p.color := by
  unfold horizontalStep; split_ifs <;> rfl

@[simp]
theorem jumpStep_x (g : Game) (p : Player) : (jumpStep g p).x = p.x := by
  unfold jumpStep; split_ifs <;> rfl

@[simp]
theorem jumpStep_y (g : Game) (p : Player) : (jumpStep g p).y = p.y := by
  unfold jumpStep; split_ifs <;> rfl

@[simp]
theorem jumpStep_width (g : Game) (p : Player) : (jumpStep g p).width = p.width := by
  unfold jumpStep; split_ifs <;> rfl

@[simp]
theorem jumpStep_height (g : Game) (p : Player) : (jumpStep g p).height = p.height := by
  unfold jumpStep; split_ifs <;> rfl

@[simp]
theorem jumpStep_velocityX (g : Game) (p : Player) :
    (jumpStep g p).velocityX = p.velocityX := by
  unfold jumpStep; split_ifs <;> rfl

@[simp]
theorem jumpStep_speed (g : Game) (p : Player) : (jumpStep g p).speed = p.speed := by
  unfold jumpStep; split_ifs <;> rfl

@[simp]
theorem jumpStep_jumpPower (g : Game) (p : Player) :
    (jumpStep g p).jumpPower = p.jumpPower := by
  unfold jumpStep; split_ifs <;> rfl

@[simp]
theorem jumpStep_color (g : Game) (p : Player) : (jumpStep g p).color = p.color := by
  unfold jumpStep; split_ifs <;> rfl

@[simp]
theorem gravityStep_x (g : Game) (p : Player) : (gravityStep g p).x = p.x := by
  unfold gravityStep; split_ifs <;> rfl

@[simp]
theorem gravityStep_y (g : Game) (p : Player) : (gravityStep g p).y = p.y := by
  unfold gravityStep; split_ifs <;> rfl

@[simp]
theorem gravityStep_width (g : Game) (p : Player) : (gravityStep g p).width = p.width := by
  unfold gravityStep; split_ifs <;> rfl

@[simp]
theorem gravityStep_height (g : Game) (p : Player) :
    (gravityStep g p).height = p.height := by
  unfold gravityStep; split_ifs <;> rfl

@[simp]
theorem gravityStep_velocityX (g : Game) (p : Player) :
    (gravityStep g p).velocityX = p.velocityX := by
  unfold gravityStep; split_ifs <;> rfl

@[simp]
theorem gravityStep_speed (g : Game) (p : Player) : (gravityStep g p).speed = p.speed := by
  unfold gravityStep; split_ifs <;> rfl

@[simp]
theorem gravityStep_jumpPower (g : Game) (p : Player) :
    (gravityStep g p).jumpPower = p.jumpPower := by
  unfold gravityStep; split_ifs <;> rfl

@[simp]
theorem gravityStep_onGround (g : Game) (p : Player) :
    (gravityStep g p).onGround = p.onGround := by
  unfold gravityStep; split_ifs <;> rfl

@[simp]
theorem gravityStep_color (g : Game) (p : Player) : (gravityStep g p).color = p.color := by
  unfold gravityStep; split_ifs <;> rfl

@[simp]
theorem integrateStep_x (p : Player) : (integrateStep p).x = p.x + p.velocityX := rfl

@[simp]
theorem integrateStep_y (p : Player) : (integrateStep p).y = p.y + p.velocityY := rfl

@[simp]
theorem integrateStep_width (p : Player) : (integrateStep p).width = p.width := rfl

@[simp]
theorem integrateStep_height (p : Player) : (integrateStep p).height = p.height := rfl

@[simp]
theorem integrateStep_velocityX (p : Player) :
    (integrateStep p).velocityX = p.velocityX := rfl

@[simp]
theorem integrateStep_velocityY (p : Player) :
    (integrateStep p).velocityY = p.velocityY := rfl

@[simp]
theorem integrateStep_speed (p : Player) : (integrateStep p).speed = p.speed := rfl

@[simp]
theorem integrateStep_jumpPower (p : Player) :
    (integrateStep p).jumpPower = p.jumpPower := rfl

@[simp]
theorem integrateStep_onGround (p : Player) :
    (integrateStep p).onGround = p.onGround := rfl

@[simp]
theorem integrateStep_color (p : Player) : (integrateStep p).color = p.color := rfl

@[simp]
theorem groundStep_x (g : Game) (p : Player) : (groundStep g p).x = p.x := by
  unfold groundStep; split_ifs <;> rfl

@[simp]
theorem groundStep_width (g : Game) (p : Player) : (groundStep g p).width = p.width := by
  unfold groundStep; split_ifs <;> rfl

@[simp]
theorem groundStep_height (g : Game) (p : Player) : (groundStep g p).height = p.height := by
  unfold groundStep; split_ifs <;> rfl

@[simp]
theorem groundStep_velocityX (g : Game) (p : Player) :
    (groundStep g p).velocityX = p.velocityX := by
  unfold groundStep; split_ifs <;> rfl

@[simp]
theorem groundStep_speed (g : Game) (p : Player) : (groundStep g p).speed = p.speed := by
  unfold groundStep; split_ifs <;> rfl

@[simp]
theorem groundStep_jumpPower (g : Game) (p : Player) :
    (groundStep g p).jumpPower = p.jumpPower := by
  unfold groundStep; split_ifs <;> rfl

@[simp]
theorem groundStep_color (g : Game) (p : Player) : (groundStep g p).color = p.color := by
  unfold groundStep; split_ifs <;> rfl

@[simp]
theorem boundsStep_y (g : Game) (p : Player) : (boundsStep g p).y = p.y := by
  unfold boundsStep; split_ifs <;> rfl

@[simp]
theorem boundsStep_width (g : Game) (p : Player) : (boundsStep g p).width = p.width := by
  unfold boundsStep; split_ifs <;> rfl

@[simp]
theorem boundsStep_height (g : Game) (p : Player) : (boundsStep g p).height = p.height := by
  unfold boundsStep; split_ifs <;> rfl

@[simp]
theorem boundsStep_velocityY (g : Game) (p : Player) :
    (boundsStep g p).velocityY = p.velocityY := by
  unfold boundsStep; split_ifs <;> rfl

@[simp]
theorem boundsStep_speed (g : Game) (p : Player) : (boundsStep g p).speed = p.speed := by
  unfold boundsStep; split_ifs <;> rfl

@[simp]
theorem boundsStep_jumpPower (g : Game) (p : Player) :
    (boundsStep g p).jumpPower = p.jumpPower := by
  unfold boundsStep; split_ifs <;> rfl

@[simp]
theorem boundsStep_onGround (g : Game) (p : Player) :
    (boundsStep g p).onGround = p.onGround := by
  unfold boundsStep; split_ifs <;> rfl

@[simp]
theorem boundsStep_color (g : Game) (p : Player) : (boundsStep g p).color = p.color := by
  unfold boundsStep; split_ifs <;> rfl

/-! ### The ground invariant -/

/-- The physics invariant: the player never sinks below the ground, and a
grounded player rests exactly on the ground with zero vertical velocity. -/
def PhysInv (g : Game) (p : Player) : Prop :=
  p.y + p.height ≤ g.groundY ∧
  (p.onGround = true → p.y + p.height = g.groundY ∧ p.velocityY = 0)

/-- The last two pipeline stages establish the invariant, provided a grounded
pre-collision player is at or below the ground line. -/
theorem ground_bounds_inv (g : Game) (q : Player)
    (h : q.onGround = true → g.groundY ≤ q.y + q.height) :
    PhysInv g (boundsStep g (groundStep g q)) := by
  unfold PhysInv
  simp only [boundsStep_y, boundsStep_height, boundsStep_onGround, boundsStep_velocityY]
  unfold groundStep
  split_ifs with hc
  · exact ⟨by simp, fun _ => ⟨by simp, rfl⟩⟩
  · refine ⟨le_of_lt (not_le.mp hc), fun hg => absurd (h hg) hc⟩

/-- A player still grounded after the position update sits at or below the
ground line, provided grounded states start at rest on the ground: it did not
jump (that would clear `onGround`), so it did not move vertically. -/
theorem preCollision_grounded_le (g : Game) (p : Player)
    (hinv : p.onGround = true → p.y + p.height = g.groundY ∧ p.velocityY = 0)
    (hg : (preCollision g p).onGround = true) :
    g.groundY ≤ (preCollision g p).y + (preCollision g p).height := by
  unfold preCollision at hg ⊢
  rw [integrateStep_onGround, gravityStep_onGround] at hg
  have hj : jumpStep g (horizontalStep g p) = horizontalStep g p ∧ p.onGround = true := by
    unfold jumpStep at hg ⊢
    split_ifs at hg ⊢ with hcond
    exact ⟨rfl, by simpa using hg⟩
  obtain ⟨hfix, hpg⟩ := hj
  obtain ⟨heq, hvy⟩ := hinv hpg
  have hgrav : gravityStep g (jumpStep g (horizontalStep g p)) =
      jumpStep g (horizontalStep g p) := by
    unfold gravityStep
    rw [hfix]
    simp [horizontalStep_onGround, hpg]
  rw [integrateStep_y, integrateStep_height, hgrav, hfix, horizontalStep_y,
    horizontalStep_velocityY, horizontalStep_height]
  rw [hvy]
  linarith

/-- A single `update` tick preserves the physics invariant, for any keys. -/
theorem updatePlayer_inv (g : Game) (p : Player) (h : PhysInv g p) :
    PhysInv g (updatePlayer g p) := by
  unfold updatePlayer
  exact ground_bounds_inv g _ (preCollision_grounded_le g p h.2)

/-- The physics invariant is preserved along any run of ticks, whatever keys
are held at each tick. -/
theorem runTicks_inv (g : Game) (p : Player) (ks : List Keys) (h : PhysInv g p) :
    PhysInv g (runTicks g p ks) := by
  induction ks generalizing p with
  | nil => exact h
  | cons k rest ih =>
      exact ih (updatePlayer { g with keys := k } p)
        (updatePlayer_inv { g with keys := k } p h)

/-- The constructor-initial player satisfies the invariant. -/
theorem initPlayer_inv (W H : ℚ) : PhysInv (initGame W H) (initPlayer (initGame W H)) := by
  unfold PhysInv initGame initPlayer
  refine ⟨by norm_num, fun hg => by simp at hg⟩

/-- C2: along every run of `update` ticks from the constructor-initial player
state (whatever keys are held at each tick), after every tick
`y + height ≤ groundY`, with equality whenever `onGround` is true. -/
theorem update_ground_invariant (W H : ℚ) (ks : List Keys) :
    (runTicks (initGame W H) (initPlayer (initGame W H)) ks).y +
        (runTicks (initGame W H) (initPlayer (initGame W H)) ks).height ≤
      (initGame W H).groundY ∧
    ((runTicks (initGame W H) (initPlayer (initGame W H)) ks).onGround = true →
      (runTicks (initGame W H) (initPlayer (initGame W H)) ks).y +
          (runTicks (initGame W H) (initPlayer (initGame W H)) ks).height =
        (initGame W H).groundY) := by
  have h := runTicks_inv (initGame W H) (initPlayer (initGame W H)) ks (initPlayer_inv W H)
  exact ⟨h.1, fun hg => (h.2 hg).1⟩

/-! ### Jumping -/

/-- The gravity stage reads only `gravity`, never the key map. -/
theorem gravityStep_keys_irrelevant (g : Game) (k : Keys) (p : Player) :
    gravityStep { g with keys := k } p = gravityStep g p := rfl

/-- The ground-collision stage reads only `groundY`, never the key map. -/
theorem groundStep_keys_irrelevant (g : Game) (k : Keys) (p : Player) :
    groundStep { g with keys := k } p = groundStep g p := rfl

/-- The bounds stage reads only the surface width, never the key map. -/
theorem boundsStep_keys_irrelevant (g : Game) (k : Keys) (p : Player) :
    boundsStep { g with keys := k } p = boundsStep g p := rfl

/-- An airborne player is unaffected by the jump stage. -/
theorem jumpStep_airborne (g : Game) (p : Player) (h : p.onGround = false) :
    jumpStep g p = p := by
  unfold jumpStep
  rw [h]
  simp

/-- The horizontal stage depends only on the `KeyA` and `KeyD` entries of the
key map. -/
theorem horizontalStep_agree (g : Game) (k2 : Keys) (p : Player)
    (hA : g.keys "KeyA" = k2 "KeyA") (hD : g.keys "KeyD" = k2 "KeyD") :
    horizontalStep { g with keys := k2 } p = horizontalStep g p := by
  simp only [horizontalStep]
  rw [hA, hD]

/-- C3: from a grounded player with the jump key held, the jump stage of that
same tick sets `velocityY = -jumpPower` and `onGround = false` (and if the
player rested exactly on the ground with `gravity < jumpPower`, as every
reachable grounded state does, the tick also ends airborne); for an airborne
player the jump key has no effect at all: the tick computes the same player as
a tick whose key map differs only on `Space`, so `velocityY` follows the
normal gravity-accumulation path (no double-jump, no re-trigger). -/
theorem jump_same_tick_and_no_retrigger (g : Game) (p q : Player) (k2 : Keys)
    (hp : p.onGround = true) (hs : g.keys "Space" = true)
    (hq : q.onGround = false) (hk : ∀ c, c ≠ "Space" → g.keys c = k2 c) :
    (jumpStep g (horizontalStep g p)).velocityY = -p.jumpPower ∧
    (jumpStep g (horizontalStep g p)).onGround = false ∧
    (p.y + p.height = g.groundY → g.gravity < p.jumpPower →
      (updatePlayer g p).onGround = false) ∧
    updatePlayer g q = updatePlayer { g with keys := k2 } q := by
  have hjp : (horizontalStep g p).onGround = true := by
    rw [horizontalStep_onGround, hp]
  have hcond : (g.keys "Space" && (horizontalStep g p).onGround) = true := by
    rw [hs, hjp]; rfl
  have hjres : jumpStep g (horizontalStep g p) =
      { horizontalStep g p with
        velocityY := -(horizontalStep g p).jumpPower
        onGround := false } := by
    unfold jumpStep; rw [if_pos hcond]
  refine ⟨?_, ?_, ?_, ?_⟩
  · rw [hjres]
    simp
  · rw [hjres]
  · intro hrest hgrav
    have honf : (preCollision g p).onGround = false := by
      unfold preCollision
      rw [integrateStep_onGround, gravityStep_onGround, hjres]
    have hy : (preCollision g p).y + (preCollision g p).height =
        g.groundY - p.jumpPower + g.gravity := by
      unfold preCollision
      rw [integrateStep_y, integrateStep_height, hjres]
      unfold gravityStep
      simp only [Bool.not_false, if_pos]
      simp [horizontalStep_y, horizontalStep_jumpPower, horizontalStep_height]
      linarith
    unfold updatePlayer
    rw [boundsStep_onGround]
    unfold groundStep
    rw [if_neg (by rw [hy]; linarith)]
    exact honf
  · unfold updatePlayer preCollision
    rw [boundsStep_keys_irrelevant g k2, groundStep_keys_irrelevant g k2,
      gravityStep_keys_irrelevant g k2,
      horizontalStep_agree g k2 q (hk _ (by decide)) (hk _ (by decide)),
      jumpStep_airborne g (horizontalStep g q)
        (by rw [horizontalStep_onGround]; exact hq),
      jumpStep_airborne { g with keys := k2 } (horizontalStep g q)
        (by rw [horizontalStep_onGround]; exact hq)]

/-- Witness for C3 at concrete inputs: a grounded player with Space held jumps
with `velocityY = -12` this tick, and an airborne player is updated identically
whether Space is held or not. -/
theorem jump_same_tick_and_no_retrigger_witness :
    (Player.onGround
        { x := 100, y := 328, width := 24, height := 32, velocityX := 0,
          velocityY := 0, speed := 4, jumpPower := 12, onGround := true,
          color := "#FF6B6B" } = true) ∧
    ((fun c => decide (c = "Space")) "Space" = true) ∧
    (Player.onGround
        { x := 100, y := 300, width := 24, height := 32, velocityX := 0,
          velocityY := -(11.5 : ℚ), speed := 4, jumpPower := 12, onGround := false,
          color := "#FF6B6B" } = false) ∧
    (jumpStep
        { width := 800, height := 400, keys := fun c => decide (c = "Space"),
          gravity := 0.5, groundY := 360 }
        (horizontalStep
          { width := 800, height := 400, keys := fun c => decide (c = "Space"),
            gravity := 0.5, groundY := 360 }
          { x := 100, y := 328, width := 24, height := 32, velocityX := 0,
            velocityY := 0, speed := 4, jumpPower := 12, onGround := true,
            color := "#FF6B6B" })).velocityY = -(12 : ℚ) ∧
    (jumpStep
        { width := 800, height := 400, keys := fun c => decide (c = "Space"),
          gravity := 0.5, groundY := 360 }
        (horizontalStep
          { width := 800, height := 400, keys := fun c => decide (c = "Space"),
            gravity := 0.5, groundY := 360 }
          { x := 100, y := 328, width := 24, height := 32, velocityX := 0,
            velocityY := 0, speed := 4, jumpPower := 12, onGround := true,
            color := "#FF6B6B" })).onGround = false ∧
    (updatePlayer
        { width := 800, height := 400, keys := fun c => decide (c = "Space"),
          gravity := 0.5, groundY := 360 }
        { x := 100, y := 328, width := 24, height := 32, velocityX := 0,
          velocityY := 0, speed := 4, jumpPower := 12, onGround := true,
          color := "#FF6B6B" }).onGround = false ∧
    updatePlayer
        { width := 800, height := 400, keys := fun c => decide (c = "Space"),
          gravity := 0.5, groundY := 360 }
        { x := 100, y := 300, width := 24, height := 32, velocityX := 0,
          velocityY := -(11.5 : ℚ), speed := 4, jumpPower := 12, onGround := false,
          color := "#FF6B6B" } =
      updatePlayer
        { width := 800, height := 400,
          keys := noKeys,
          gravity := 0.5, groundY := 360 }
        { x := 100, y := 300, width := 24, height := 32, velocityX := 0,
          velocityY := -(11.5 : ℚ), speed := 4, jumpPower := 12, onGround := false,
          color := "#FF6B6B" } := by
  have h := jump_same_tick_and_no_retrigger
    { width := 800, height := 400, keys := fun c => decide (c = "Space"),
      gravity := 0.5, groundY := 360 }
    { x := 100, y := 328, width := 24, height := 32, velocityX := 0,
      velocityY := 0, speed := 4, jumpPower := 12, onGround := true,
      color := "#FF6B6B" }
    { x := 100, y := 300, width := 24, height := 32, velocityX := 0,
      velocityY := -(11.5 : ℚ), speed := 4, jumpPower := 12, onGround := false,
      color := "#FF6B6B" }
    noKeys rfl (by decide) rfl
    (fun c hc => by simp [noKeys, hc])
  refine ⟨rfl, by decide, rfl, by simpa using h.1, h.2.1,
    h.2.2.1 (by norm_num) (by norm_num), h.2.2.2⟩

/-! ### Ground collision clamp -/

@[simp]
theorem preCollision_height (g : Game) (p : Player) :
    (preCollision g p).height = p.height := by
  unfold preCollision
  rw [integrateStep_height, gravityStep_height, jumpStep_height, horizontalStep_height]

@[simp]
theorem preCollision_width (g : Game) (p : Player) :
    (preCollision g p).width = p.width := by
  unfold preCollision
  rw [integrateStep_width, gravityStep_width, jumpStep_width, horizontalStep_width]

/-- What the last two pipeline stages do: at or below the ground line the
player is clamped onto it with zeroed vertical velocity and `onGround` set;
strictly above it, `onGround` is left untouched. -/
theorem ground_clamp_core (g : Game) (q : Player) :
    (g.groundY ≤ q.y + q.height →
      (boundsStep g (groundStep g q)).y = g.groundY - q.height ∧
      (boundsStep g (groundStep g q)).velocityY = 0 ∧
      (boundsStep g (groundStep g q)).onGround = true) ∧
    (q.y + q.height < g.groundY →
      (boundsStep g (groundStep g q)).onGround = q.onGround) := by
  simp only [boundsStep_y, boundsStep_velocityY, boundsStep_onGround]
  unfold groundStep
  split_ifs with hc
  · exact ⟨fun _ => ⟨rfl, rfl, rfl⟩, fun hlt => absurd hc (not_le.mpr hlt)⟩
  · exact ⟨fun hge => absurd hge hc, fun _ => rfl⟩

/-- C4 (amended): for every player state satisfying the grounded-rest
invariant (`onGround` implies resting exactly on the ground with zero vertical
velocity — true of every reachable state): if after the position update
`y + height ≥ groundY` then the tick ends with `y = groundY - height` (so
`y + height = groundY`), `velocityY = 0` and `onGround = true`; otherwise
(`y + height < groundY` after the position update) the tick ends with
`onGround = false`. -/
theorem ground_collision_clamp (g : Game) (p : Player)
    (hinv : p.onGround = true → p.y + p.height = g.groundY ∧ p.velocityY = 0) :
    (g.groundY ≤ (preCollision g p).y + (preCollision g p).height →
      (updatePlayer g p).y = g.groundY - p.height ∧
      (updatePlayer g p).velocityY = 0 ∧
      (updatePlayer g p).onGround = true) ∧
    ((preCollision g p).y + (preCollision g p).height < g.groundY →
      (updatePlayer g p).onGround = false) := by
  have hcore := ground_clamp_core g (preCollision g p)
  constructor
  · intro hge
    obtain ⟨hy, hv, hog⟩ := hcore.1 hge
    unfold updatePlayer
    refine ⟨?_, hv, hog⟩
    rw [hy, preCollision_height]
  · intro hlt
    unfold updatePlayer
    rw [hcore.2 hlt]
    cases hpo : (preCollision g p).onGround with
    | false => rfl
    | true => exact absurd (preCollision_grounded_le g p hinv hpo) (not_le.mpr hlt)

/-- Witness for C4 at concrete inputs: a player resting on the ground with no
keys held satisfies the invariant, stays clamped (the at-or-below branch), and
the strictly-above branch holds vacuously. -/
theorem ground_collision_clamp_witness :
    ((true = true →
        (328 : ℚ) + 32 = 360 ∧ (0 : ℚ) = 0)) ∧
    (((360 : ℚ) ≤
        (preCollision
          { width := 800, height := 400, keys := noKeys, gravity := 0.5,
            groundY := 360 }
          { x := 100, y := 328, width := 24, height := 32, velocityX := 0,
            velocityY := 0, speed := 4, jumpPower := 12, onGround := true,
            color := "#FF6B6B" }).y +
        (preCollision
          { width := 800, height := 400, keys := noKeys, gravity := 0.5,
            groundY := 360 }
          { x := 100, y := 328, width := 24, height := 32, velocityX := 0,
            velocityY := 0, speed := 4, jumpPower := 12, onGround := true,
            color := "#FF6B6B" }).height →
      (updatePlayer
          { width := 800, height := 400, keys := noKeys, gravity := 0.5,
            groundY := 360 }
          { x := 100, y := 328, width := 24, height := 32, velocityX := 0,
            velocityY := 0, speed := 4, jumpPower := 12, onGround := true,
            color := "#FF6B6B" }).y = (360 : ℚ) - 32 ∧
      (updatePlayer
          { width := 800, height := 400, keys := noKeys, gravity := 0.5,
            groundY := 360 }
          { x := 100, y := 328, width := 24, height := 32, velocityX := 0,
            velocityY := 0, speed := 4, jumpPower := 12, onGround := true,
            color := "#FF6B6B" }).velocityY = 0 ∧
      (updatePlayer
          { width := 800, height := 400, keys := noKeys, gravity := 0.5,
            groundY := 360 }
          { x := 100, y := 328, width := 24, height := 32, velocityX := 0,
            velocityY := 0, speed := 4, jumpPower := 12, onGround := true,
            color := "#FF6B6B" }).onGround = true) ∧
    ((preCollision
          { width := 800, height := 400, keys := noKeys, gravity := 0.5,
            groundY := 360 }
          { x := 100, y := 328, width := 24, height := 32, velocityX := 0,
            velocityY := 0, speed := 4, jumpPower := 12, onGround := true,
            color := "#FF6B6B" }).y +
        (preCollision
          { width := 800, height := 400, keys := noKeys, gravity := 0.5,
            groundY := 360 }
          { x := 100, y := 328, width := 24, height := 32, velocityX := 0,
            velocityY := 0, speed := 4, jumpPower := 12, onGround := true,
            color := "#FF6B6B" }).height < (360 : ℚ) →
      (updatePlayer
          { width := 800, height := 400, keys := noKeys, gravity := 0.5,
            groundY := 360 }
          { x := 100, y := 328, width := 24, height := 32, velocityX := 0,
            velocityY := 0, speed := 4, jumpPower := 12, onGround := true,
            color := "#FF6B6B" }).onGround = false)) := by
  refine ⟨fun _ => ⟨by norm_num, rfl⟩, ?_⟩
  exact ground_collision_clamp
    { width := 800, height := 400, keys := noKeys, gravity := 0.5, groundY := 360 }
    { x := 100, y := 328, width := 24, height := 32, velocityX := 0,
      velocityY := 0, speed := 4, jumpPower := 12, onGround := true,
      color := "#FF6B6B" }
    (fun _ => ⟨by norm_num, rfl⟩)

/-- C4 counterexample to the unrestricted claim: a (non-reachable) player
marked grounded but moving upwards at `velocityY = -5` ends the tick still
strictly above the ground yet with `onGround = true`, contradicting the
otherwise-branch of the claim as stated for every player state. -/
theorem ground_collision_clamp_cex :
    (preCollision
        { width := 800, height := 400, keys := noKeys, gravity := 0.5,
          groundY := 360 }
        { x := 100, y := 100, width := 24, height := 32, velocityX := 0,
          velocityY := -5, speed := 4, jumpPower := 12, onGround := true,
          color := "#FF6B6B" }).y +
      (preCollision
        { width := 800, height := 400, keys := noKeys, gravity := 0.5,
          groundY := 360 }
        { x := 100, y := 100, width := 24, height := 32, velocityX := 0,
          velocityY := -5, speed := 4, jumpPower := 12, onGround := true,
          color := "#FF6B6B" }).height < (360 : ℚ) ∧
    ¬ ((updatePlayer
        { width := 800, height := 400, keys := noKeys, gravity := 0.5,
          groundY := 360 }
        { x := 100, y := 100, width := 24, height := 32, velocityX := 0,
          velocityY := -5, speed := 4, jumpPower := 12, onGround := true,
          color := "#FF6B6B" }).onGround = false) := by
  constructor
  · norm_num [preCollision, integrateStep, gravityStep, jumpStep, horizontalStep, noKeys]
  · norm_num [updatePlayer, preCollision, boundsStep, groundStep, integrateStep,
      gravityStep, jumpStep, horizontalStep, noKeys]

/-! ### Friction -/

/-- With neither horizontal key held, the horizontal stage multiplies
`velocityX` by `0.8`. -/
theorem horizontalStep_friction (g : Game) (p : Player)
    (hA : g.keys "KeyA" = false) (hD : g.keys "KeyD" = false) :
    (horizontalStep g p).velocityX = p.velocityX * 0.8 := by
  unfold horizontalStep
  rw [hA, hD]
  simp

/-- C5 (amended): with neither `KeyA` nor `KeyD` held, a tick multiplies
`velocityX` by exactly `0.8`, provided the integrated `x` stays inside the
horizontal bounds (otherwise the boundary clamp zeroes `velocityX`); a
`velocityX` of `0` stays `0` in every case, including at the bounds, with no
in-bounds proviso. -/
theorem friction_scales_velocityX (g : Game) (p : Player)
    (hA : g.keys "KeyA" = false) (hD : g.keys "KeyD" = false) :
    (0 ≤ p.x + p.velocityX * 0.8 →
      p.x + p.velocityX * 0.8 + p.width ≤ g.width →
      (updatePlayer g p).velocityX = p.velocityX * 0.8) ∧
    (p.velocityX = 0 → (updatePlayer g p).velocityX = 0) := by
  have hvx : (groundStep g (preCollision g p)).velocityX = p.velocityX * 0.8 := by
    rw [groundStep_velocityX]
    unfold preCollision
    rw [integrateStep_velocityX, gravityStep_velocityX, jumpStep_velocityX]
    exact horizontalStep_friction g p hA hD
  have hx : (groundStep g (preCollision g p)).x = p.x + p.velocityX * 0.8 := by
    rw [groundStep_x]
    unfold preCollision
    rw [integrateStep_x, gravityStep_x, jumpStep_x, horizontalStep_x,
      gravityStep_velocityX, jumpStep_velocityX, horizontalStep_friction g p hA hD]
  have hw : (groundStep g (preCollision g p)).width = p.width := by
    rw [groundStep_width, preCollision_width]
  constructor
  · intro h1 h2
    unfold updatePlayer boundsStep
    split_ifs with hc1 hc2
    · rw [hx] at hc1; linarith
    · rw [hx, hw] at hc2; linarith
    · exact hvx
  · intro hz
    unfold updatePlayer boundsStep
    split_ifs with hc1 hc2
    · rfl
    · rfl
    · rw [hvx, hz, zero_mul]

/-- Witness for C5 at concrete inputs: with no keys held, a player coasting at
`velocityX = 2` well inside the bounds ends the tick with
`velocityX = 2 * 0.8`; and a player past the left edge at `x = -5` (where the
bounds clamp fires) with `velocityX = 0` still ends the tick with
`velocityX = 0`, exercising the no-proviso zero case. -/
theorem friction_scales_velocityX_witness :
    (noKeys "KeyA" = false) ∧ (noKeys "KeyD" = false) ∧
    ((0 : ℚ) ≤ 100 + 2 * 0.8) ∧ ((100 : ℚ) + 2 * 0.8 + 24 ≤ 800) ∧
    (updatePlayer
        { width := 800, height := 400, keys := noKeys, gravity := 0.5,
          groundY := 360 }
        { x := 100, y := 328, width := 24, height := 32, velocityX := 2,
          velocityY := 0, speed := 4, jumpPower := 12, onGround := true,
          color := "#FF6B6B" }).velocityX = (2 : ℚ) * 0.8 ∧
    ((-5 : ℚ) + 0 * 0.8 < 0) ∧
    (updatePlayer
        { width := 800, height := 400, keys := noKeys, gravity := 0.5,
          groundY := 360 }
        { x := -5, y := 328, width := 24, height := 32, velocityX := 0,
          velocityY := 0, speed := 4, jumpPower := 12, onGround := true,
          color := "#FF6B6B" }).velocityX = 0 := by
  refine ⟨rfl, rfl, by norm_num, by norm_num, ?_, by norm_num, ?_⟩
  · exact (friction_scales_velocityX
      { width := 800, height := 400, keys := noKeys, gravity := 0.5, groundY := 360 }
      { x := 100, y := 328, width := 24, height := 32, velocityX := 2,
        velocityY := 0, speed := 4, jumpPower := 12, onGround := true,
        color := "#FF6B6B" }
      rfl rfl).1 (by norm_num) (by norm_num)
  · exact (friction_scales_velocityX
      { width := 800, height := 400, keys := noKeys, gravity := 0.5, groundY := 360 }
      { x := -5, y := 328, width := 24, height := 32, velocityX := 0,
        velocityY := 0, speed := 4, jumpPower := 12, onGround := true,
        color := "#FF6B6B" }
      rfl rfl).2 rfl

/-- C5 counterexample to the unrestricted claim: with no keys held but the
player sliding into the left wall, the horizontal clamp zeroes `velocityX`,
which is then not `0.8` times its prior value `-4`. -/
theorem friction_scales_velocityX_cex :
    (updatePlayer
        { width := 800, height := 400, keys := noKeys, gravity := 0.5,
          groundY := 360 }
        { x := 0, y := 328, width := 24, height := 32, velocityX := -4,
          velocityY := 0, speed := 4, jumpPower := 12, onGround := true,
          color := "#FF6B6B" }).velocityX = 0 ∧
    ¬ ((updatePlayer
        { width := 800, height := 400, keys := noKeys, gravity := 0.5,
          groundY := 360 }
        { x := 0, y := 328, width := 24, height := 32, velocityX := -4,
          velocityY := 0, speed := 4, jumpPower := 12, onGround := true,
          color := "#FF6B6B" }).velocityX = (-4 : ℚ) * 0.8) := by
  constructor
  · norm_num [updatePlayer, preCollision, boundsStep, groundStep, integrateStep,
      gravityStep, jumpStep, horizontalStep, noKeys]
  · norm_num [updatePlayer, preCollision, boundsStep, groundStep, integrateStep,
      gravityStep, jumpStep, horizontalStep, noKeys]

/-! ### Horizontal bounds clamp -/

/-- C6 (amended): for every player state whose width fits the surface
(`width ≤ game.width`): if `x < 0` after the position update then the tick
ends with `x = 0` and `velocityX = 0`; and if `x + width > game.width` after
the position update then the tick ends with `x = game.width - width` and
`velocityX = 0`.  (When the player is wider than the surface the two cases
can overlap, and the else-if of the source resolves the overlap in favour of
the left clamp, so the right-edge conclusion fails there.) -/
theorem horizontal_bounds_clamp (g : Game) (p : Player) (hw : p.width ≤ g.width) :
    ((preCollision g p).x < 0 →
      (updatePlayer g p).x = 0 ∧ (updatePlayer g p).velocityX = 0) ∧
    (g.width < (preCollision g p).x + p.width →
      (updatePlayer g p).x = g.width - p.width ∧
      (updatePlayer g p).velocityX = 0) := by
  have hgx : (groundStep g (preCollision g p)).x = (preCollision g p).x :=
    groundStep_x g _
  have hgw : (groundStep g (preCollision g p)).width = p.width := by
    rw [groundStep_width, preCollision_width]
  constructor
  · intro hlt
    unfold updatePlayer boundsStep
    split_ifs with hc1 hc2
    · exact ⟨rfl, rfl⟩
    · rw [hgx] at hc1; exact absurd hlt hc1
    · rw [hgx] at hc1; exact absurd hlt hc1
  · intro hgt
    unfold updatePlayer boundsStep
    split_ifs with hc1 hc2
    · rw [hgx] at hc1; linarith
    · simp [hgw]
    · rw [hgx, hgw] at hc2; exact absurd hgt hc2

/-- Witness for C6 at concrete inputs: a player coasting rightwards past the
right edge is clamped to `x = 800 - 24` with zeroed `velocityX`. -/
theorem horizontal_bounds_clamp_witness :
    ((24 : ℚ) ≤ 800) ∧
    (((preCollision
          { width := 800, height := 400, keys := noKeys, gravity := 0.5,
            groundY := 360 }
          { x := 790, y := 0, width := 24, height := 32, velocityX := 20,
            velocityY := 0, speed := 4, jumpPower := 12, onGround := false,
            color := "#FF6B6B" }).x < 0 →
      (updatePlayer
          { width := 800, height := 400, keys := noKeys, gravity := 0.5,
            groundY := 360 }
          { x := 790, y := 0, width := 24, height := 32, velocityX := 20,
            velocityY := 0, speed := 4, jumpPower := 12, onGround := false,
            color := "#FF6B6B" }).x = 0 ∧
      (updatePlayer
          { width := 800, height := 400, keys := noKeys, gravity := 0.5,
            groundY := 360 }
          { x := 790, y := 0, width := 24, height := 32, velocityX := 20,
            velocityY := 0, speed := 4, jumpPower := 12, onGround := false,
            color := "#FF6B6B" }).velocityX = 0) ∧
    ((800 : ℚ) <
        (preCollision
          { width := 800, height := 400, keys := noKeys, gravity := 0.5,
            groundY := 360 }
          { x := 790, y := 0, width := 24, height := 32, velocityX := 20,
            velocityY := 0, speed := 4, jumpPower := 12, onGround := false,
            color := "#FF6B6B" }).x + 24 →
      (updatePlayer
          { width := 800, height := 400, keys := noKeys, gravity := 0.5,
            groundY := 360 }
          { x := 790, y := 0, width := 24, height := 32, velocityX := 20,
            velocityY := 0, speed := 4, jumpPower := 12, onGround := false,
            color := "#FF6B6B" }).x = (800 : ℚ) - 24 ∧
      (updatePlayer
          { width := 800, height := 400, keys := noKeys, gravity := 0.5,
            groundY := 360 }
          { x := 790, y := 0, width := 24, height := 32, velocityX := 20,
            velocityY := 0, speed := 4, jumpPower := 12, onGround := false,
            color := "#FF6B6B" }).velocityX = 0)) := by
  refine ⟨by norm_num, ?_⟩
  exact horizontal_bounds_clamp
    { width := 800, height := 400, keys := noKeys, gravity := 0.5, groundY := 360 }
    { x := 790, y := 0, width := 24, height := 32, velocityX := 20,
      velocityY := 0, speed := 4, jumpPower := 12, onGround := false,
      color := "#FF6B6B" }
    (by norm_num)

/-- C6 counterexample to the unrestricted claim: a player wider (24) than the
surface (10) integrates to `x = -3`, which both undershoots the left edge and
overshoots the right edge; the else-if of the source takes the left clamp, so
`x` ends at `0`, not at `width - playerWidth = -14` as the right-edge clause
of the claim demands. -/
theorem horizontal_bounds_clamp_cex :
    (preCollision
        { width := 10, height := 400, keys := noKeys, gravity := 0.5,
          groundY := 360 }
        { x := 5, y := 0, width := 24, height := 32, velocityX := -10,
          velocityY := 0, speed := 4, jumpPower := 12, onGround := false,
          color := "#FF6B6B" }).x < 0 ∧
    (10 : ℚ) <
      (preCollision
        { width := 10, height := 400, keys := noKeys, gravity := 0.5,
          groundY := 360 }
        { x := 5, y := 0, width := 24, height := 32, velocityX := -10,
          velocityY := 0, speed := 4, jumpPower := 12, onGround := false,
          color := "#FF6B6B" }).x + 24 ∧
    (updatePlayer
        { width := 10, height := 400, keys := noKeys, gravity := 0.5,
          groundY := 360 }
        { x := 5, y := 0, width := 24, height := 32, velocityX := -10,
          velocityY := 0, speed := 4, jumpPower := 12, onGround := false,
          color := "#FF6B6B" }).x = 0 ∧
    ¬ ((updatePlayer
        { width := 10, height := 400, keys := noKeys, gravity := 0.5,
          groundY := 360 }
        { x := 5, y := 0, width := 24, height := 32, velocityX := -10,
          velocityY := 0, speed := 4, jumpPower := 12, onGround := false,
          color := "#FF6B6B" }).x = (10 : ℚ) - 24) := by
  refine ⟨?_, ?_, ?_, ?_⟩ <;>
    norm_num [updatePlayer, preCollision, boundsStep, groundStep, integrateStep,
      gravityStep, jumpStep, horizontalStep, noKeys]

/-! ### The landing scenario -/

/-- Running ticks over a concatenation splits into two runs. -/
theorem runTicks_append (g : Game) (p : Player) (l1 l2 : List Keys) :
    runTicks g p (l1 ++ l2) = runTicks g (runTicks g p l1) l2 := by
  induction l1 generalizing p with
  | nil => rfl
  | cons k ks ih => exact ih _

/-- A single-tick run is one player update. -/
theorem runTicks_one (g : Game) (p : Player) (k : Keys) :
    runTicks g p [k] = updatePlayer { g with keys := k } p := rfl

/-- Field values after the pre-collision stages of a fall tick: no horizontal
keys, no jump key, airborne, so friction scales `velocityX`, gravity
accumulates into `velocityY`, and both are integrated. -/
theorem preCollision_fall_fields (g : Game) (p : Player)
    (hA : g.keys "KeyA" = false) (hD : g.keys "KeyD" = false)
    (hS : g.keys "Space" = false) (hog : p.onGround = false) :
    (preCollision g p).x = p.x + p.velocityX * 0.8 ∧
    (preCollision g p).y = p.y + (p.velocityY + g.gravity) ∧
    (preCollision g p).velocityX = p.velocityX * 0.8 ∧
    (preCollision g p).velocityY = p.velocityY + g.gravity ∧
    (preCollision g p).onGround = p.onGround := by
  have h1 : horizontalStep g p = { p with velocityX := p.velocityX * 0.8 } := by
    unfold horizontalStep
    rw [hA, hD]
    simp
  have h2 : jumpStep g (horizontalStep g p) = horizontalStep g p := by
    unfold jumpStep
    rw [hS]
    simp
  have h3 : gravityStep g (horizontalStep g p) =
      { horizontalStep g p with velocityY := p.velocityY + g.gravity } := by
    unfold gravityStep
    simp [horizontalStep_onGround, horizontalStep_velocityY, hog]
  unfold preCollision
  rw [h2, h3, h1]
  exact ⟨rfl, rfl, rfl, rfl, rfl⟩

/-- One falling tick with no keys held: gravity accumulates and the player
stays airborne when it remains strictly above the ground line and inside the
horizontal bounds. -/
theorem fall_tick_fields (g : Game) (p : Player)
    (hA : g.keys "KeyA" = false) (hD : g.keys "KeyD" = false)
    (hS : g.keys "Space" = false) (hog : p.onGround = false)
    (hvx : p.velocityX = 0)
    (hx1 : 0 ≤ p.x) (hx2 : p.x + p.width ≤ g.width)
    (hy : p.y + (p.velocityY + g.gravity) + p.height < g.groundY) :
    (updatePlayer g p).x = p.x ∧
    (updatePlayer g p).y = p.y + (p.velocityY + g.gravity) ∧
    (updatePlayer g p).velocityX = 0 ∧
    (updatePlayer g p).velocityY = p.velocityY + g.gravity ∧
    (updatePlayer g p).onGround = false ∧
    (updatePlayer g p).width = p.width ∧
    (updatePlayer g p).height = p.height := by
  obtain ⟨px, py, pvx, pvy, pog⟩ := preCollision_fall_fields g p hA hD hS hog
  have hpw : (preCollision g p).width = p.width := preCollision_width g p
  have hph : (preCollision g p).height = p.height := preCollision_height g p
  have hxx : (preCollision g p).x = p.x := by rw [px, hvx]; ring
  have hgr : groundStep g (preCollision g p) = preCollision g p := by
    unfold groundStep
    rw [if_neg (by rw [py, hph]; exact not_le.mpr hy)]
  have hbd : boundsStep g (preCollision g p) = preCollision g p := by
    unfold boundsStep
    rw [if_neg (by rw [hxx]; exact not_lt.mpr hx1),
      if_neg (by rw [hxx, hpw]; exact not_lt.mpr hx2)]
  unfold updatePlayer
  rw [hgr, hbd]
  exact ⟨hxx, py, by rw [pvx, hvx]; ring, pvy, by rw [pog, hog], hpw, hph⟩

/-- The exact fall profile: after `m ≤ 29` no-key ticks from the drop state
(`y = 100`), the player sits at `y = 100 + m(m+1)/4` with `velocityY = m/2`,
still airborne, at `x = 100` with zero horizontal velocity, size unchanged. -/
theorem fall_profile : ∀ (m : ℕ), m ≤ 29 →
    (runTicks (initGame 800 400) { initPlayer (initGame 800 400) with y := 100 }
        (List.replicate m noKeys)).x = 100 ∧
    (runTicks (initGame 800 400) { initPlayer (initGame 800 400) with y := 100 }
        (List.replicate m noKeys)).y = 100 + (m : ℚ) * (m + 1) / 4 ∧
    (runTicks (initGame 800 400) { initPlayer (initGame 800 400) with y := 100 }
        (List.replicate m noKeys)).velocityX = 0 ∧
    (runTicks (initGame 800 400) { initPlayer (initGame 800 400) with y := 100 }
        (List.replicate m noKeys)).velocityY = (m : ℚ) / 2 ∧
    (runTicks (initGame 800 400) { initPlayer (initGame 800 400) with y := 100 }
        (List.replicate m noKeys)).onGround = false ∧
    (runTicks (initGame 800 400) { initPlayer (initGame 800 400) with y := 100 }
        (List.replicate m noKeys)).width = 24 ∧
    (runTicks (initGame 800 400) { initPlayer (initGame 800 400) with y := 100 }
        (List.replicate m noKeys)).height = 32 := by
  intro m
  induction m with
  | zero =>
      intro _
      exact ⟨rfl, by norm_num [runTicks, initPlayer], rfl,
        by norm_num [runTicks, initPlayer], rfl, rfl, rfl⟩
  | succ n ih =>
      intro hm
      obtain ⟨ix, iy, ivx, ivy, iog, iw, ihh⟩ := ih (Nat.le_of_succ_le hm)
      have hn : (n : ℚ) ≤ 28 := by exact_mod_cast Nat.le_of_succ_le_succ hm
      have hn0 : (0 : ℚ) ≤ (n : ℚ) := by positivity
      rw [List.replicate_succ', runTicks_append, runTicks_one]
      have step := fall_tick_fields
        { initGame 800 400 with keys := noKeys }
        (runTicks (initGame 800 400)
          { initPlayer (initGame 800 400) with y := 100 }
          (List.replicate n noKeys))
        rfl rfl rfl iog ivx
        (by rw [ix]; norm_num)
        (by rw [ix, iw]; norm_num [initGame])
        (by
          rw [iy, ivy, ihh]
          simp only [initGame]
          nlinarith [mul_nonneg (by linarith : (0 : ℚ) ≤ 28 - (n : ℚ))
            (by positivity : (0 : ℚ) ≤ (n : ℚ) + 1)])
      obtain ⟨sx, sy, svx, svy, sog, sw, sh⟩ := step
      refine ⟨by rw [sx, ix], ?_, svx, ?_, sog, by rw [sw, iw], by rw [sh, ihh]⟩
      · rw [sy, iy, ivy]
        simp only [initGame]
        push_cast
        ring
      · rw [svy, ivy]
        simp only [initGame]
        push_cast
        ring

/-- C7: dropping the player from `y = 100` (with `groundY = 360`,
`height = 32`, `gravity = 0.5`, no keys held), the run first reports
`onGround = true` after exactly 30 ticks, landing exactly at `y = 328`; and 30
is exactly the smallest `n` with `100 + 0.5*1 + ... + 0.5*n ≥ 360 - 32`, i.e.
with `100 + n*(n+1)/4 ≥ 328`. -/
theorem falling_lands_in_30_ticks :
    (runTicks (initGame 800 400) { initPlayer (initGame 800 400) with y := 100 }
        (List.replicate 30 noKeys)).onGround = true ∧
    (runTicks (initGame 800 400) { initPlayer (initGame 800 400) with y := 100 }
        (List.replicate 30 noKeys)).y = 328 ∧
    (∀ m : Fin 30,
      (runTicks (initGame 800 400) { initPlayer (initGame 800 400) with y := 100 }
        (List.replicate m.1 noKeys)).onGround = false) ∧
    ((360 : ℚ) - 32 ≤ 100 + 30 * 31 / 4) ∧
    (∀ m : Fin 30, 100 + (m.1 : ℚ) * (m.1 + 1) / 4 < 360 - 32) := by
  obtain ⟨ix, iy, ivx, ivy, iog, iw, ihh⟩ := fall_profile 29 (le_refl 29)
  obtain ⟨pcx, pcy, pcvx, pcvy, pcog⟩ := preCollision_fall_fields
    { initGame 800 400 with keys := noKeys }
    (runTicks (initGame 800 400) { initPlayer (initGame 800 400) with y := 100 }
      (List.replicate 29 noKeys))
    rfl rfl rfl iog
  have hph := preCollision_height { initGame 800 400 with keys := noKeys }
    (runTicks (initGame 800 400) { initPlayer (initGame 800 400) with y := 100 }
      (List.replicate 29 noKeys))
  have hge : ({ initGame 800 400 with keys := noKeys } : Game).groundY ≤
      (preCollision { initGame 800 400 with keys := noKeys }
        (runTicks (initGame 800 400)
          { initPlayer (initGame 800 400) with y := 100 }
          (List.replicate 29 noKeys))).y +
      (preCollision { initGame 800 400 with keys := noKeys }
        (runTicks (initGame 800 400)
          { initPlayer (initGame 800 400) with y := 100 }
          (List.replicate 29 noKeys))).height := by
    rw [pcy, hph, iy, ivy, ihh]
    simp only [initGame]
    norm_num
  have hclamp := (ground_clamp_core { initGame 800 400 with keys := noKeys }
    (preCollision { initGame 800 400 with keys := noKeys }
      (runTicks (initGame 800 400)
        { initPlayer (initGame 800 400) with y := 100 }
        (List.replicate 29 noKeys)))).1 hge
  have h30 : List.replicate 30 noKeys =
      List.replicate 29 noKeys ++ [noKeys] := by
    rw [← List.replicate_succ']
  refine ⟨?_, ?_, ?_, by norm_num, ?_⟩
  · rw [h30, runTicks_append, runTicks_one]
    unfold updatePlayer
    exact hclamp.2.2
  · rw [h30, runTicks_append, runTicks_one]
    unfold updatePlayer
    rw [hclamp.1, hph, ihh]
    simp only [initGame]
    norm_num
  · intro m
    exact (fall_profile m.1 (Nat.le_of_lt_succ m.isLt)).2.2.2.2.1
  · intro m
    have hm : (m.1 : ℚ) ≤ 29 := by exact_mod_cast Nat.le_of_lt_succ m.isLt
    have hm0 : (0 : ℚ) ≤ (m.1 : ℚ) := by positivity
    nlinarith [mul_nonneg (sub_nonneg.mpr hm)
      (by positivity : (0 : ℚ) ≤ (m.1 : ℚ) + 1)]


/-! ### Pause trigger and frame effect -/

/-- C8: whenever the current state is GAMEPLAY and `Escape` is held during a
`GameplayState` update tick, `getCurrentState()` immediately after that tick
returns PAUSE. -/
theorem escape_held_pauses (σ : Type) (gs : GameplayState) (now : ℚ)
    (sm : StateManager σ) (w : σ)
    (hG : sm.getCurrentState = GameState.GAMEPLAY)
    (hEsc : gs.game.keys "Escape" = true) :
    (GameplayState.update gs now sm w).2.1.getCurrentState = GameState.PAUSE := by
  obtain ⟨cur, ob⟩ := sm
  simp only [GameplayState.update]
  rw [if_pos hEsc]
  cases ob <;> rfl

/-- Witness for C8 at concrete inputs: holding Escape in GAMEPLAY switches the
manager to PAUSE within the tick. -/
theorem escape_held_pauses_witness :
    (StateManager.getCurrentState
        (σ := Nat) { currentState := GameState.GAMEPLAY, onStateChange := none } =
      GameState.GAMEPLAY) ∧
    ((fun c => decide (c = "Escape")) "Escape" = true) ∧
    (GameplayState.update
        { game := { width := 800, height := 400,
                    keys := fun c => decide (c = "Escape"),
                    gravity := 0.5, groundY := 360 },
          player := { x := 100, y := 328, width := 24, height := 32,
                      velocityX := 0, velocityY := 0, speed := 4,
                      jumpPower := 12, onGround := true, color := "#FF6B6B" },
          sprites := none }
        0 { currentState := GameState.GAMEPLAY, onStateChange := none }
        (0 : Nat)).2.1.getCurrentState = GameState.PAUSE := by
  refine ⟨rfl, by decide, ?_⟩
  exact escape_held_pauses Nat
    { game := { width := 800, height := 400,
                keys := fun c => decide (c = "Escape"),
                gravity := 0.5, groundY := 360 },
      player := { x := 100, y := 328, width := 24, height := 32,
                  velocityX := 0, velocityY := 0, speed := 4,
                  jumpPower := 12, onGround := true, color := "#FF6B6B" },
      sprites := none }
    0 { currentState := GameState.GAMEPLAY, onStateChange := none } 0
    rfl (by decide)

/-- C10: an update tick changes only the dynamic player fields and the sprite
animation clocks: the game record (`width`, `height`, `keys`, `gravity`,
`groundY`) is returned unchanged; the player tunables `width`, `height`,
`speed`, `jumpPower` (and `color`) are unchanged; every sprite keeps its frame
geometry (`frameWidth`, `frameHeight`, `totalFrames`) and `animationSpeed`,
its map entry keeping its identifier, only the clock (`currentFrame`,
`lastFrameTime`) being recomputed by `Sprite.update`. -/
theorem update_mutates_only_dynamics (σ : Type) (gs : GameplayState) (now : ℚ)
    (sm : StateManager σ) (w : σ) :
    (GameplayState.update gs now sm w).1.game = gs.game ∧
    (GameplayState.update gs now sm w).1.player.width = gs.player.width ∧
    (GameplayState.update gs now sm w).1.player.height = gs.player.height ∧
    (GameplayState.update gs now sm w).1.player.speed = gs.player.speed ∧
    (GameplayState.update gs now sm w).1.player.jumpPower = gs.player.jumpPower ∧
    (GameplayState.update gs now sm w).1.player.color = gs.player.color ∧
    (GameplayState.update gs now sm w).1.sprites =
      gs.sprites.map (fun l => l.map fun is => (is.1, is.2.update now)) ∧
    (∀ s : Sprite, (s.update now).frameWidth = s.frameWidth ∧
      (s.update now).frameHeight = s.frameHeight ∧
      (s.update now).totalFrames = s.totalFrames ∧
      (s.update now).animationSpeed = s.animationSpeed) := by
  have hp : (GameplayState.update gs now sm w).1.player =
      updatePlayer gs.game gs.player := rfl
  have hw : (updatePlayer gs.game gs.player).width = gs.player.width := by
    unfold updatePlayer
    rw [boundsStep_width, groundStep_width, preCollision_width]
  have hh : (updatePlayer gs.game gs.player).height = gs.player.height := by
    unfold updatePlayer
    rw [boundsStep_height, groundStep_height, preCollision_height]
  have hs : (updatePlayer gs.game gs.player).speed = gs.player.speed := by
    unfold updatePlayer preCollision
    rw [boundsStep_speed, groundStep_speed, integrateStep_speed, gravityStep_speed,
      jumpStep_speed, horizontalStep_speed]
  have hj : (updatePlayer gs.game gs.player).jumpPower = gs.player.jumpPower := by
    unfold updatePlayer preCollision
    rw [boundsStep_jumpPower, groundStep_jumpPower, integrateStep_jumpPower,
      gravityStep_jumpPower, jumpStep_jumpPower, horizontalStep_jumpPower]
  have hc : (updatePlayer gs.game gs.player).color = gs.player.color := by
    unfold updatePlayer preCollision
    rw [boundsStep_color, groundStep_color, integrateStep_color, gravityStep_color,
      jumpStep_color, horizontalStep_color]
  refine ⟨rfl, ?_, ?_, ?_, ?_, ?_, rfl, ?_⟩
  · rw [hp]; exact hw
  · rw [hp]; exact hh
  · rw [hp]; exact hs
  · rw [hp]; exact hj
  · rw [hp]; exact hc
  · intro s
    unfold Sprite.update
    split_ifs <;> exact ⟨rfl, rfl, rfl, rfl⟩

end Platformer
